import Mathlib

/-!
Verification development for the GeoSlop travel-discovery front end.

The definitions below are a shallow embedding of the navigation and
session-consistency core of the application: JavaScript numbers that can be
NaN or infinite are modelled by an explicit inductive type, the React state
hooks are collected into one `AppState` record, asynchronous handlers become
pure state transformers parameterised by the outcome of each awaited gateway
call (an oracle) and by the clock values observed at each `Date.now()` call,
and every dispatched gateway request is recorded in an effect trace.
-/

/-- A JavaScript `number` as far as the app inspects it: a finite value
(modelled by a rational), `NaN`, or one of the two infinities. -/
inductive JSNum where
  | num (q : ℚ)
  | nan
  | posInf
  | negInf
deriving DecidableEq

/-- The result of JavaScript `isNaN` on a number. -/
def JSNum.isNaNb : JSNum → Bool
  | JSNum.nan => true
  | _ => false

/-- Source `App.tsx`: `const isValidCoord = (val) => typeof val === 'number' && !isNaN(val);`
applied to a value already typed `number`, so only the `isNaN` test can fail. -/
def isValidCoord (v : JSNum) : Bool := !v.isNaNb

/-- `isValidCoord` applied to a possibly-`undefined` field: `typeof undefined`
is not `'number'`, so a missing value is invalid. -/
def isValidCoordOpt : Option JSNum → Bool
  | none => false
  | some v => isValidCoord v

/-- JavaScript truthiness of a possibly-`undefined` string: `undefined` and
the empty string are falsy. -/
def jsTruthy : Option String → Bool
  | none => false
  | some s => s != ""

/-- JavaScript `String.prototype.trim`, as an executable model: strip
whitespace from both ends. -/
def jsTrim (s : String) : String :=
  ⟨((s.data.dropWhile Char.isWhitespace).reverse.dropWhile Char.isWhitespace).reverse⟩

/-- A grounding citation returned alongside a free-form answer (`types.ts`). -/
structure GroundingSource where
  title : String
  uri : String
deriving DecidableEq

/-- A map result attached to a free-form answer (`types.ts`). -/
structure LocationResult where
  title : String
  uri : String
  latitude : Option JSNum
  longitude : Option JSNum
deriving DecidableEq

/-- Chat roles (`types.ts`). -/
inductive Role where
  | user
  | assistant
deriving DecidableEq

/-- A chat message (`Message` in `types.ts`); the optional fields are modelled
as lists, empty when absent. -/
structure Message where
  id : String
  role : Role
  content : String
  timestamp : Nat
  sources : List GroundingSource
  locationData : List LocationResult
deriving DecidableEq

/-- A gallery item (`VisualLandmark` in the service module). -/
structure VisualLandmark where
  shortCaption : String
  richCaption : String
  imageUrl : String
  sourceUri : Option String
deriving DecidableEq

/-- A latitude/longitude pair (`UserLocation` in `types.ts`). -/
structure UserLocation where
  latitude : JSNum
  longitude : JSNum
deriving DecidableEq

/-- A navigation-history entry (`NavLocation` in `App.tsx`). -/
structure NavLocation where
  name : String
  lat : JSNum
  lng : JSNum
deriving DecidableEq

/-- The geocode result shape (`GeocodeResponse` in the service module); every
field may be absent in the parsed JSON. -/
structure GeocodeResponse where
  name : Option String
  lat : Option JSNum
  lng : Option JSNum
  alternatives : Option (List String)
deriving DecidableEq

/-- The free-form query result `{ text, sources, locationData }`. -/
structure QueryResponse where
  text : String
  sources : List GroundingSource
  locationData : List LocationResult
deriving DecidableEq

/-! ## The AI gateway retry layer (`geminiService.ts`) -/

/-- The parts of a thrown JavaScript error that `withRetry` inspects:
`error?.message` and `error?.status`. -/
structure JSError where
  message : Option String
  status : Option Int
deriving DecidableEq

/-- JavaScript `String.prototype.includes`: `pat` occurs somewhere in `s`
exactly when splitting on `pat` produces at least two pieces. -/
def strIncludes (s pat : String) : Bool := decide (2 ≤ (s.splitOn pat).length)

/-- `error?.message?.includes('429') || error?.status === 429`. -/
def isRateLimited (e : JSError) : Bool :=
  (match e.message with
    | some m => strIncludes m "429"
    | none => false)
  || (e.status == some 429)

/-- `error?.status >= 500 && error?.status <= 504`; comparisons against
`undefined` are false. -/
def isServerError (e : JSError) : Bool :=
  match e.status with
  | some st => decide (500 ≤ st) && decide (st ≤ 504)
  | none => false

/-- The retry condition of `withRetry`. -/
def retryable (e : JSError) : Bool := isRateLimited e || isServerError e

/-- What one call to `withRetry` produced: the final result, how many times
the wrapped operation was invoked, and the backoff delays waited between
invocations (base delay times `3 ^ attempt` plus the sampled jitter). -/
structure RetryResult (α : Type) where
  res : Except JSError α
  invocations : Nat
  delays : List ℚ

/-- The loop body of `withRetry`: `attempt` is the current attempt index and
`remaining` the number of retries still allowed (`maxRetries - attempt`).
The wrapped operation is the oracle `o`, giving the outcome of each attempt;
`jitter` is the value of `Math.random() * 3000` sampled at each backoff. -/
def retryGo (o : Nat → Except JSError α) (jitter : Nat → ℚ) (baseDelay : ℚ) :
    Nat → Nat → RetryResult α
  | attempt, remaining =>
    match o attempt with
    | Except.ok a => ⟨Except.ok a, 1, []⟩
    | Except.error e =>
      match remaining with
      | 0 => ⟨Except.error e, 1, []⟩
      | r + 1 =>
        if retryable e then
          let rest := retryGo o jitter baseDelay (attempt + 1) r
          ⟨rest.res, rest.invocations + 1,
            (baseDelay * 3 ^ attempt + jitter attempt) :: rest.delays⟩
        else ⟨Except.error e, 1, []⟩

/-- `withRetry` with its default arguments `maxRetries = 4`, `baseDelay = 3000`. -/
def withRetry (o : Nat → Except JSError α) (jitter : Nat → ℚ) : RetryResult α :=
  retryGo o jitter 3000 0 4

/-- `getLocationSummary`: each attempt yields `response.text?.trim() || fallback`
(the oracle gives `response.text` of each attempt, `none` for `undefined`),
the whole retried call is wrapped in a `try/catch` returning the fallback. -/
def getLocationSummary (placeName : String)
    (responses : Nat → Except JSError (Option String)) (jitter : Nat → ℚ) : String :=
  let fallbackText := s!"Welcome to {placeName}!"
  let attempt : Nat → Except JSError String := fun a =>
    match responses a with
    | Except.ok t? =>
      Except.ok (match t? with
        | some t => if jsTrim t == "" then fallbackText else jsTrim t
        | none => fallbackText)
    | Except.error e => Except.error e
  match (withRetry attempt jitter).res with
  | Except.ok str => str
  | Except.error _ => fallbackText

/-! ## Application state (`App.tsx`) -/

/-- The `useState`/`useRef` hooks of the `App` component gathered into one
record, plus the `activeSessionId` ref of the session-token generator. -/
structure AppState where
  messages : List Message
  input : String
  searchQuery : String
  isLoading : Bool
  isGalleryLoading : Bool
  focalLocation : Option UserLocation
  mapCenter : JSNum × JSNum
  mapZoom : Nat
  currentLocationName : String
  markers : List LocationResult
  galleryImages : List VisualLandmark
  suggestedQuestions : List String
  suggestedAlternatives : List String
  seenHistory : List String
  navHistory : List NavLocation
  historyIndex : Nat
  activeSessionId : Nat
deriving DecidableEq

/-- The initial hook values of the `App` component (the initial message
timestamp, `Date.now()` at mount, is fixed to 0). -/
def initState : AppState :=
  { messages := [⟨"1", Role.assistant,
      "Welcome to GeoSlop. I have initiated a swarm capture to gather real-world photos for you. Where shall we go?",
      0, [], []⟩]
    input := ""
    searchQuery := ""
    isLoading := false
    isGalleryLoading := false
    focalLocation := none
    mapCenter := (JSNum.num 47.4517, JSNum.num (-122.4631))
    mapZoom := 10
    currentLocationName := "Vashon Island"
    markers := []
    galleryImages := []
    suggestedQuestions := []
    suggestedAlternatives := []
    seenHistory := ["Vashon Island", "Petra"]
    navHistory := [⟨"Vashon Island", JSNum.num 47.4517, JSNum.num (-122.4631)⟩]
    historyIndex := 0
    activeSessionId := 0 }

/-- One dispatched gateway request or busy-flag write, recorded in the effect
trace of a handler. -/
inductive Effect where
  | galleryFetch (place : String)
  | questionsFetch (place : String)
  | summaryFetch (place : String)
  | geocodeFetch (query : String)
  | reverseGeocodeFetch (lat lng : JSNum)
  | dynamicLocationFetch
  | queryFetch (query : String)
  | setBusy (b : Bool)
deriving DecidableEq

/-- Outcome of the awaited `getLocationSummary` call inside `jumpTo` (the
service never rejects, but `jumpTo` still guards with `try/catch`). -/
inductive SummaryOutcome where
  | ok (summary : String)
  | threw
deriving DecidableEq

/-- The chat-message mutation-by-id pattern of `App.tsx`:
`prev.map(m => m.id === targetId ? { ...m, content } : m)`. -/
def updateMessageContent (targetId content : String) (msgs : List Message) : List Message :=
  msgs.map (fun m => if m.id = targetId then { m with content := content } else m)

/-- The synchronous prefix of `updateGalleryAndQuestions`, up to its first
await: capture `++activeSessionId.current`, clear the gallery, raise the
gallery-loading flag, clear the question list. Returns the captured token. -/
def updateGalleryStart (s : AppState) : AppState × Nat :=
  ({ s with activeSessionId := s.activeSessionId + 1
            galleryImages := []
            isGalleryLoading := true
            suggestedQuestions := [] }, s.activeSessionId + 1)

/-- The continuation of `updateGalleryAndQuestions` once its `Promise.all`
settles, for the refresh that captured `tok`: on success, write the results
only if the captured token still equals the active token; on a thrown
aggregate failure write nothing; in either case the `finally` block clears
the gallery-loading flag only when the captured token is still current. -/
def galleryComplete (tok : Nat)
    (outcome : Except Unit (List VisualLandmark × List String)) (s : AppState) : AppState :=
  match outcome with
  | Except.ok (landmarks, questions) =>
    if tok = s.activeSessionId then
      { s with suggestedQuestions := questions
               galleryImages := landmarks
               isGalleryLoading := false }
    else s
  | Except.error _ =>
    if tok = s.activeSessionId then { s with isGalleryLoading := false } else s

/-- `jumpTo` (`App.tsx`): validate, apply the synchronous UI updates, append
the warping placeholder (id `Date.now()`, the `now` parameter), start the
gallery/question refresh, raise the busy flag, update history when the jump
is not a back/forward traversal, then resolve the placeholder from the
summary outcome and clear the busy flag in the `finally` block. -/
def jumpTo (name : String) (lat lng : JSNum) (isNavigating : Bool)
    (now : Nat) (outcome : SummaryOutcome) (s : AppState) : AppState × List Effect :=
  if isValidCoord lat && isValidCoord lng then
    let s1 := { s with currentLocationName := name
                       searchQuery := name
                       suggestedAlternatives := []
                       mapCenter := (lat, lng)
                       mapZoom := 16
                       focalLocation := some ⟨lat, lng⟩
                       galleryImages := [] }
    let warpingId := toString now
    let s2 := { s1 with messages := s1.messages ++
      [(⟨warpingId, Role.assistant, s!"Warping to {name}...", now, [], []⟩ : Message)] }
    let s3 := { s2 with isGalleryLoading := true }
    let s4 := (updateGalleryStart s3).1
    let s5 := { s4 with isLoading := true }
    let s6 := if isNavigating then s5 else
      let newHistory := s5.navHistory.take (s5.historyIndex + 1) ++ [(⟨name, lat, lng⟩ : NavLocation)]
      { s5 with navHistory := newHistory, historyIndex := newHistory.length - 1 }
    let content := match outcome with
      | SummaryOutcome.ok summary => s!"Warped to {name}!\n\n{summary}"
      | SummaryOutcome.threw => s!"Warped to {name}! Ready to explore."
    let s7 := { s6 with messages := updateMessageContent warpingId content s6.messages }
    let s8 := { s7 with isLoading := false }
    (s8, [Effect.galleryFetch name, Effect.questionsFetch name, Effect.setBusy true,
          Effect.summaryFetch name, Effect.setBusy false])
  else (s, [])

/-- `handleBack`: guarded by `historyIndex > 0`; the cursor moves before the
traversal `jumpTo`. An out-of-range read (impossible under the history
invariant) is modelled as an invalid entry. -/
def handleBack (now : Nat) (outcome : SummaryOutcome) (s : AppState) : AppState × List Effect :=
  if 0 < s.historyIndex then
    let entry := s.navHistory.getD (s.historyIndex - 1) ⟨"", JSNum.nan, JSNum.nan⟩
    let s1 := { s with historyIndex := s.historyIndex - 1 }
    jumpTo entry.name entry.lat entry.lng true now outcome s1
  else (s, [])

/-- `handleForward`: guarded by `historyIndex < navHistory.length - 1`. -/
def handleForward (now : Nat) (outcome : SummaryOutcome) (s : AppState) : AppState × List Effect :=
  if s.historyIndex + 1 < s.navHistory.length then
    let entry := s.navHistory.getD (s.historyIndex + 1) ⟨"", JSNum.nan, JSNum.nan⟩
    let s1 := { s with historyIndex := s.historyIndex + 1 }
    jumpTo entry.name entry.lat entry.lng true now outcome s1
  else (s, [])

/-- `handleMapClick`: busy/validity guard, reverse geocode, then a fresh
`jumpTo` when the result has valid coordinates; the busy flag is cleared in
the `finally` block. -/
def handleMapClick (lat lng : JSNum) (result : Except Unit (Option NavLocation))
    (now1 : Nat) (outcome : SummaryOutcome) (s : AppState) : AppState × List Effect :=
  if s.isLoading || !isValidCoord lat || !isValidCoord lng then (s, [])
  else
    let s1 := { s with isLoading := true }
    match result with
    | Except.error _ => ({ s1 with isLoading := false }, [Effect.reverseGeocodeFetch lat lng])
    | Except.ok none => ({ s1 with isLoading := false }, [Effect.reverseGeocodeFetch lat lng])
    | Except.ok (some r) =>
      if isValidCoord r.lat && isValidCoord r.lng then
        let p := jumpTo r.name r.lat r.lng false now1 outcome s1
        ({ p.1 with isLoading := false }, Effect.reverseGeocodeFetch lat lng :: p.2)
      else ({ s1 with isLoading := false }, [Effect.reverseGeocodeFetch lat lng])

/-- `handleLocationSearch`: compute `(customQuery || searchQuery).trim()`,
guard on empty query or busy flag, geocode, then either jump, show
alternatives, or report not-found; the busy flag is cleared in `finally`. -/
def handleLocationSearch (customQuery : Option String)
    (result : Except Unit (Option GeocodeResponse)) (now1 jumpNow : Nat)
    (outcome : SummaryOutcome) (s : AppState) : AppState × List Effect :=
  let query := jsTrim (match customQuery with
    | some c => if c != "" then c else s.searchQuery
    | none => s.searchQuery)
  if query == "" || s.isLoading then (s, [])
  else
    let s1 := { s with isLoading := true, suggestedAlternatives := [] }
    let notFound := fun (st : AppState) => { st with
      messages := st.messages ++
        [(⟨toString now1, Role.assistant,
          s!"Sorry, I couldn\x27t find \"{query}\". Try a different city.", now1, [], []⟩ : Message)]
      isLoading := false }
    match result with
    | Except.error _ => ({ s1 with isLoading := false }, [Effect.geocodeFetch query])
    | Except.ok none => (notFound s1, [Effect.geocodeFetch query])
    | Except.ok (some r) =>
      if jsTruthy r.name && isValidCoordOpt r.lat && isValidCoordOpt r.lng then
        let p := jumpTo (r.name.getD "") (r.lat.getD JSNum.nan) (r.lng.getD JSNum.nan)
          false jumpNow outcome s1
        ({ p.1 with isLoading := false }, Effect.geocodeFetch query :: p.2)
      else
        match r.alternatives with
        | some alts =>
          if alts.isEmpty then (notFound s1, [Effect.geocodeFetch query])
          else
            ({ s1 with suggestedAlternatives := alts
                       messages := s1.messages ++
                         [(⟨toString now1, Role.assistant,
                           s!"I couldn\x27t find \"{query}\". Did you mean one of these?",
                           now1, [], []⟩ : Message)]
                       isLoading := false }, [Effect.geocodeFetch query])
        | none => (notFound s1, [Effect.geocodeFetch query])

/-- `handleSend`: guard on empty text or busy flag, append the user turn
(id `Date.now()` at `now0`), clear the input box unless the text was passed
in, query, then append the assistant turn with id `Date.now() + 1` taken at
`now1`; `response.locationData` is always an array, hence truthy, so the
markers are replaced on every success. -/
def handleSend (customInput : Option String) (now0 : Nat)
    (result : Except Unit QueryResponse) (now1 : Nat) (s : AppState) : AppState × List Effect :=
  let queryText := match customInput with
    | some c => if c != "" then c else s.input
    | none => s.input
  if jsTrim queryText == "" || s.isLoading then (s, [])
  else
    let s1 := { s with messages := s.messages ++
      [(⟨toString now0, Role.user, queryText, now0, [], []⟩ : Message)] }
    let s2 := if jsTruthy customInput then s1 else { s1 with input := "" }
    let s3 := { s2 with isLoading := true }
    match result with
    | Except.error _ => ({ s3 with isLoading := false }, [Effect.queryFetch queryText])
    | Except.ok resp =>
      let s4 := { s3 with messages := s3.messages ++
        [(⟨toString (now1 + 1), Role.assistant, resp.text, now1, resp.sources, resp.locationData⟩ : Message)] }
      let s5 := { s4 with markers := resp.locationData }
      ({ s5 with isLoading := false }, [Effect.queryFetch queryText])

/-- The `setSeenHistory` updater of `handleFeelingLucky`:
`prev => [...prev.slice(-20), gem.name]`. -/
def pushSeen (h : List String) (name : String) : List String :=
  h.drop (h.length - 20) ++ [name]

/-- `handleFeelingLucky` (`App.tsx`): bump the session token, clear gallery
and questions, raise the busy flag, append the transient searching message
(id `Date.now()` at `now0`), fetch a random location; on any result the
transient message is removed, and on a valid result the name is recorded in
`seenHistory` before the fresh `jumpTo`; a null or invalid result, or a
thrown error, clears the busy flag instead. -/
def handleFeelingLucky (now0 now1 : Nat) (gemResult : Except Unit (Option NavLocation))
    (outcome : SummaryOutcome) (s : AppState) : AppState × List Effect :=
  if s.isLoading then (s, [])
  else
    let s1 := { s with activeSessionId := s.activeSessionId + 1
                       galleryImages := []
                       suggestedQuestions := []
                       isLoading := true }
    let loadingId := toString now0
    let s2 := { s1 with messages := s1.messages ++
      [(⟨loadingId, Role.assistant, "Scouring the globe for something unique...", now0, [], []⟩ : Message)] }
    match gemResult with
    | Except.error _ => ({ s2 with isLoading := false }, [Effect.dynamicLocationFetch])
    | Except.ok gemOpt =>
      let s3 := { s2 with messages := s2.messages.filter (fun m => m.id != loadingId) }
      let failed := fun (st : AppState) => ({ st with
        isLoading := false
        messages := st.messages ++
          [(⟨toString now1, Role.assistant,
            "I couldn\x27t find a new spot right now. Let\x27s try again.", now1, [], []⟩ : Message)] },
        [Effect.dynamicLocationFetch])
      match gemOpt with
      | some gem =>
        if isValidCoord gem.lat && isValidCoord gem.lng then
          let s4 := { s3 with seenHistory := pushSeen s3.seenHistory gem.name }
          let p := jumpTo gem.name gem.lat gem.lng false now1 outcome s4
          (p.1, Effect.dynamicLocationFetch :: p.2)
        else failed s3
      | none => failed s3

/-! ## Helper lemmas about `jumpTo` -/

lemma jumpTo_of_invalid (name : String) (lat lng : JSNum) (nav : Bool) (now : Nat)
    (o : SummaryOutcome) (s : AppState) (h : (isValidCoord lat && isValidCoord lng) = false) :
    jumpTo name lat lng nav now o s = (s, []) := by
  simp [jumpTo, h]

lemma jumpTo_seenHistory (name : String) (lat lng : JSNum) (nav : Bool) (now : Nat)
    (o : SummaryOutcome) (s : AppState) :
    (jumpTo name lat lng nav now o s).1.seenHistory = s.seenHistory := by
  by_cases h : (isValidCoord lat && isValidCoord lng) = true
  · cases nav <;> simp [jumpTo, h, updateGalleryStart]
  · simp [jumpTo_of_invalid name lat lng nav now o s (by simpa using h)]

lemma jumpTo_isLoading_of_valid (name : String) (lat lng : JSNum) (nav : Bool) (now : Nat)
    (o : SummaryOutcome) (s : AppState) (h : (isValidCoord lat && isValidCoord lng) = true) :
    (jumpTo name lat lng nav now o s).1.isLoading = false := by
  cases nav <;> simp [jumpTo, h, updateGalleryStart]

lemma jumpTo_nav_true_hist (name : String) (lat lng : JSNum) (now : Nat)
    (o : SummaryOutcome) (s : AppState) :
    (jumpTo name lat lng true now o s).1.navHistory = s.navHistory
    ∧ (jumpTo name lat lng true now o s).1.historyIndex = s.historyIndex := by
  by_cases h : (isValidCoord lat && isValidCoord lng) = true
  · simp [jumpTo, h, updateGalleryStart]
  · simp [jumpTo_of_invalid name lat lng true now o s (by simpa using h)]

lemma jumpTo_fresh_hist (name : String) (lat lng : JSNum) (now : Nat)
    (o : SummaryOutcome) (s : AppState) (h : (isValidCoord lat && isValidCoord lng) = true) :
    (jumpTo name lat lng false now o s).1.navHistory
      = s.navHistory.take (s.historyIndex + 1) ++ [(⟨name, lat, lng⟩ : NavLocation)]
    ∧ (jumpTo name lat lng false now o s).1.historyIndex
      = (s.navHistory.take (s.historyIndex + 1) ++ [(⟨name, lat, lng⟩ : NavLocation)]).length - 1 := by
  simp [jumpTo, h, updateGalleryStart]

/-! ## C1: stale gallery/question refreshes are discarded -/

/-- C1: a gallery/question refresh that captured session token `tok` writes
nothing at all to the state when, at completion time, `tok` is no longer the
active token; consequently, when refreshes N and N+1 overlap (both started,
then both complete in either order, N+1 succeeding), the final gallery and
question lists are exactly N+1's results, never a mix. -/
theorem claim1_stale_session_discard :
    (∀ (tok : Nat) (o : Except Unit (List VisualLandmark × List String)) (s : AppState),
        tok ≠ s.activeSessionId → galleryComplete tok o s = s)
    ∧
    (∀ (s : AppState) (oN : Except Unit (List VisualLandmark × List String))
        (ls : List VisualLandmark) (qs : List String),
        let s1 := (updateGalleryStart s).1
        let tokN := (updateGalleryStart s).2
        let s2 := (updateGalleryStart s1).1
        let tokN1 := (updateGalleryStart s1).2
        ((galleryComplete tokN1 (Except.ok (ls, qs)) (galleryComplete tokN oN s2)).galleryImages = ls
          ∧ (galleryComplete tokN1 (Except.ok (ls, qs)) (galleryComplete tokN oN s2)).suggestedQuestions = qs)
        ∧ ((galleryComplete tokN oN (galleryComplete tokN1 (Except.ok (ls, qs)) s2)).galleryImages = ls
          ∧ (galleryComplete tokN oN (galleryComplete tokN1 (Except.ok (ls, qs)) s2)).suggestedQuestions = qs)) := by
  constructor
  · intro tok o s h
    cases o with
    | ok p => cases p with | mk ls qs => simp [galleryComplete, h]
    | error e => simp [galleryComplete, h]
  · intro s oN ls qs
    have hne : s.activeSessionId + 1 ≠ s.activeSessionId + 2 := by omega
    have hstale : galleryComplete (s.activeSessionId + 1) oN
        ((updateGalleryStart (updateGalleryStart s).1).1)
        = (updateGalleryStart (updateGalleryStart s).1).1 := by
      cases oN with
      | ok p => cases p with | mk a b => simp [galleryComplete, updateGalleryStart, hne]
      | error e => simp [galleryComplete, updateGalleryStart, hne]
    constructor
    · simp only [updateGalleryStart] at hstale ⊢
      rw [hstale]
      simp [galleryComplete]
    · cases oN with
      | ok p =>
        cases p with
        | mk a b => simp [galleryComplete, updateGalleryStart, hne]
      | error e => simp [galleryComplete, updateGalleryStart, hne]

/-- Witness for C1: a concrete stale completion (captured token 1, active
token 2) leaves a concrete state untouched. -/
theorem claim1_witness :
    (1 : Nat) ≠ ((updateGalleryStart (updateGalleryStart initState).1).1).activeSessionId
    ∧ galleryComplete 1 (Except.ok ([], ["q"]))
        ((updateGalleryStart (updateGalleryStart initState).1).1)
      = (updateGalleryStart (updateGalleryStart initState).1).1 :=
  ⟨by decide, claim1_stale_session_discard.1 1 (Except.ok ([], ["q"]))
    ((updateGalleryStart (updateGalleryStart initState).1).1) (by decide)⟩

/-! ## C2: coordinate validation in `jumpTo` -/

/-- Counterexample to C2 as stated: `+Infinity` is a non-finite coordinate,
yet `isValidCoord` only rejects `NaN`, so `jumpTo` with latitude `+Infinity`
mutates the state (location name, history) and dispatches fetches. -/
theorem claim2_counterexample :
    (jumpTo "Null Island" JSNum.posInf (JSNum.num 0) false 5 SummaryOutcome.threw
        initState).1.currentLocationName = "Null Island"
    ∧ (jumpTo "Null Island" JSNum.posInf (JSNum.num 0) false 5 SummaryOutcome.threw
        initState).1.navHistory.length = 2
    ∧ (jumpTo "Null Island" JSNum.posInf (JSNum.num 0) false 5 SummaryOutcome.threw
        initState).2 ≠ [] := by
  refine ⟨rfl, rfl, ?_⟩
  decide

/-- C2 (amended): for every call in which either coordinate is `NaN` (the
only non-finite values `isValidCoord` rejects), `jumpTo` returns without any
state mutation and without dispatching any fetch. -/
theorem claim2_nan_rejected (name : String) (lat lng : JSNum) (nav : Bool) (now : Nat)
    (o : SummaryOutcome) (s : AppState) (h : lat = JSNum.nan ∨ lng = JSNum.nan) :
    jumpTo name lat lng nav now o s = (s, []) := by
  apply jumpTo_of_invalid
  rcases h with h | h <;> subst h <;>
    simp [isValidCoord, JSNum.isNaNb]

/-- Witness for C2's amended theorem at a concrete `NaN` latitude. -/
theorem claim2_witness :
    jumpTo "Nowhere" JSNum.nan (JSNum.num 0) false 0 SummaryOutcome.threw initState
      = (initState, []) :=
  claim2_nan_rejected "Nowhere" JSNum.nan (JSNum.num 0) false 0 SummaryOutcome.threw
    initState (Or.inl rfl)

/-! ## C4: the navigation-history invariant -/

/-- The invariant of C4: the history is never empty and the cursor is in
range (the lower bound is inherent to `Nat`). -/
def histInv (s : AppState) : Prop :=
  s.navHistory ≠ [] ∧ s.historyIndex < s.navHistory.length

instance (s : AppState) : Decidable (histInv s) := by
  unfold histInv; infer_instance

/-- C4: `histInv` is preserved by `jumpTo`, `handleBack` and `handleForward`;
`handleBack` moves the cursor only when it is positive and decrements it by
one, `handleForward` only below the last index and increments it by one, and
a fresh valid `jumpTo` leaves the cursor at the index of the newly appended
last entry. -/
theorem claim4_nav_invariant (s : AppState) (h : histInv s) (name : String)
    (lat lng : JSNum) (nav : Bool) (now : Nat) (o : SummaryOutcome) :
    histInv (jumpTo name lat lng nav now o s).1
    ∧ histInv (handleBack now o s).1
    ∧ histInv (handleForward now o s).1
    ∧ (s.historyIndex = 0 → (handleBack now o s).1 = s)
    ∧ (s.historyIndex = s.navHistory.length - 1 → (handleForward now o s).1 = s)
    ∧ (0 < s.historyIndex → (handleBack now o s).1.historyIndex = s.historyIndex - 1)
    ∧ (s.historyIndex + 1 < s.navHistory.length →
        (handleForward now o s).1.historyIndex = s.historyIndex + 1)
    ∧ (nav = false → (isValidCoord lat && isValidCoord lng) = true →
        (jumpTo name lat lng nav now o s).1.historyIndex + 1
          = (jumpTo name lat lng nav now o s).1.navHistory.length
        ∧ (jumpTo name lat lng nav now o s).1.navHistory.getLast?
          = some ⟨name, lat, lng⟩) := by
  obtain ⟨hne, hlt⟩ := h
  have hjump : ∀ (nav' : Bool), histInv (jumpTo name lat lng nav' now o s).1 := by
    intro nav'
    by_cases hv : (isValidCoord lat && isValidCoord lng) = true
    · cases nav' with
      | true =>
        obtain ⟨e1, e2⟩ := jumpTo_nav_true_hist name lat lng now o s
        exact ⟨by rw [e1]; exact hne, by rw [e1, e2]; exact hlt⟩
      | false =>
        obtain ⟨e1, e2⟩ := jumpTo_fresh_hist name lat lng now o s hv
        constructor
        · rw [e1]; simp
        · rw [e1, e2]; simp
    · rw [jumpTo_of_invalid name lat lng nav' now o s (by simpa using hv)]
      exact ⟨hne, hlt⟩
  have hback : histInv (handleBack now o s).1 ∧
      (0 < s.historyIndex → (handleBack now o s).1.historyIndex = s.historyIndex - 1) := by
    by_cases hpos : 0 < s.historyIndex
    · unfold handleBack
      rw [if_pos hpos]
      set entry := s.navHistory.getD (s.historyIndex - 1) ⟨"", JSNum.nan, JSNum.nan⟩ with hentry
      obtain ⟨e1, e2⟩ := jumpTo_nav_true_hist entry.name entry.lat entry.lng now o
        { s with historyIndex := s.historyIndex - 1 }
      constructor
      · exact ⟨by rw [e1]; exact hne, by rw [e1, e2]; simp; omega⟩
      · intro _; rw [e2]
    · unfold handleBack
      rw [if_neg hpos]
      exact ⟨⟨hne, hlt⟩, fun hc => absurd hc hpos⟩
  have hfwd : histInv (handleForward now o s).1 ∧
      (s.historyIndex + 1 < s.navHistory.length →
        (handleForward now o s).1.historyIndex = s.historyIndex + 1) := by
    by_cases hpos : s.historyIndex + 1 < s.navHistory.length
    · unfold handleForward
      rw [if_pos hpos]
      set entry := s.navHistory.getD (s.historyIndex + 1) ⟨"", JSNum.nan, JSNum.nan⟩ with hentry
      obtain ⟨e1, e2⟩ := jumpTo_nav_true_hist entry.name entry.lat entry.lng now o
        { s with historyIndex := s.historyIndex + 1 }
      constructor
      · exact ⟨by rw [e1]; exact hne, by rw [e1, e2]; simpa using hpos⟩
      · intro _; rw [e2]
    · unfold handleForward
      rw [if_neg hpos]
      exact ⟨⟨hne, hlt⟩, fun hc => absurd hc hpos⟩
  refine ⟨hjump nav, hback.1, hfwd.1, ?_, ?_, hback.2, hfwd.2, ?_⟩
  · intro h0
    unfold handleBack
    rw [if_neg (by omega)]
  · intro hlast
    unfold handleForward
    rw [if_neg (by omega)]
  · intro hnav hv
    subst hnav
    obtain ⟨e1, e2⟩ := jumpTo_fresh_hist name lat lng now o s hv
    constructor
    · rw [e1, e2]; simp
    · rw [e1]; exact List.getLast?_concat _

/-- Witness for C4 at the initial state and a concrete fresh jump. -/
theorem claim4_witness :
    histInv (jumpTo "Paris" (JSNum.num 1) (JSNum.num 2) false 3
      (SummaryOutcome.ok "s") initState).1
    ∧ histInv (handleBack 3 (SummaryOutcome.ok "s") initState).1 := by
  have h := claim4_nav_invariant initState (by decide) "Paris" (JSNum.num 1) (JSNum.num 2)
    false 3 (SummaryOutcome.ok "s")
  exact ⟨h.1, h.2.1⟩

/-! ## C5: history truncation on a fresh jump after back -/

/-- C5: from history `[A, B, C]` with the cursor on `C`, going back and then
jumping fresh to `D` discards `C`: the history becomes `[A, B, D]` with the
cursor on `D`. -/
theorem claim5_history_truncation :
    (jumpTo "D" (JSNum.num 4) (JSNum.num 4) false 20 (SummaryOutcome.ok "t")
        (handleBack 10 (SummaryOutcome.ok "s")
          { initState with
              navHistory := [⟨"A", JSNum.num 1, JSNum.num 1⟩, ⟨"B", JSNum.num 2, JSNum.num 2⟩,
                ⟨"C", JSNum.num 3, JSNum.num 3⟩]
              historyIndex := 2 }).1).1.navHistory
      = [⟨"A", JSNum.num 1, JSNum.num 1⟩, ⟨"B", JSNum.num 2, JSNum.num 2⟩,
         ⟨"D", JSNum.num 4, JSNum.num 4⟩]
    ∧ (jumpTo "D" (JSNum.num 4) (JSNum.num 4) false 20 (SummaryOutcome.ok "t")
        (handleBack 10 (SummaryOutcome.ok "s")
          { initState with
              navHistory := [⟨"A", JSNum.num 1, JSNum.num 1⟩, ⟨"B", JSNum.num 2, JSNum.num 2⟩,
                ⟨"C", JSNum.num 3, JSNum.num 3⟩]
              historyIndex := 2 }).1).1.historyIndex = 2
    ∧ (handleBack 10 (SummaryOutcome.ok "s")
          { initState with
              navHistory := [⟨"A", JSNum.num 1, JSNum.num 1⟩, ⟨"B", JSNum.num 2, JSNum.num 2⟩,
                ⟨"C", JSNum.num 3, JSNum.num 3⟩]
              historyIndex := 2 }).1.historyIndex = 1 := by
  refine ⟨?_, rfl, rfl⟩
  rfl

/-! ## C6: the busy flag around the summary fetch -/

/-- C6: every `jumpTo` that passes coordinate validation emits exactly this
effect trace — the busy flag is raised once and cleared once, on the success
path and on the failure path of the summary fetch alike. -/
theorem claim6_busy_exactly_once (name : String) (lat lng : JSNum) (nav : Bool)
    (now : Nat) (o : SummaryOutcome) (s : AppState)
    (h : (isValidCoord lat && isValidCoord lng) = true) :
    (jumpTo name lat lng nav now o s).2
      = [Effect.galleryFetch name, Effect.questionsFetch name, Effect.setBusy true,
         Effect.summaryFetch name, Effect.setBusy false]
    ∧ (jumpTo name lat lng nav now o s).2.count (Effect.setBusy true) = 1
    ∧ (jumpTo name lat lng nav now o s).2.count (Effect.setBusy false) = 1 := by
  have htr : (jumpTo name lat lng nav now o s).2
      = [Effect.galleryFetch name, Effect.questionsFetch name, Effect.setBusy true,
         Effect.summaryFetch name, Effect.setBusy false] := by
    simp [jumpTo, h]
  refine ⟨htr, ?_, ?_⟩ <;> rw [htr] <;> simp [List.count_cons, List.count_nil]

/-- Witness for C6 on the failure path at a concrete place. -/
theorem claim6_witness :
    (jumpTo "Lima" (JSNum.num 1) (JSNum.num 2) false 7 SummaryOutcome.threw
        initState).2.count (Effect.setBusy true) = 1
    ∧ (jumpTo "Lima" (JSNum.num 1) (JSNum.num 2) false 7 SummaryOutcome.threw
        initState).2.count (Effect.setBusy false) = 1 :=
  (claim6_busy_exactly_once "Lima" (JSNum.num 1) (JSNum.num 2) false 7
    SummaryOutcome.threw initState (by decide)).2

/-! ## C7: placeholder resolution and the summary fallback -/

/-- C7: after a valid `jumpTo`, the placeholder message (the transcript's
last message) carries `"Warped to <name>!\n\n<summary>"` when the summary
fetch succeeded and `"Warped to <name>! Ready to explore."` when it threw, so
the failure never escapes `jumpTo`; and `getLocationSummary` itself is a
total function into `String` that returns the fallback `"Welcome to
<placeName>!"` whenever every underlying attempt fails, or the first response
carries no text or only-whitespace text. -/
theorem claim7_summary_fallback (name summary place : String) (lat lng : JSNum)
    (nav : Bool) (now : Nat) (s : AppState)
    (h : (isValidCoord lat && isValidCoord lng) = true) :
    ((jumpTo name lat lng nav now (SummaryOutcome.ok summary) s).1.messages.getLast?
      = some ⟨toString now, Role.assistant, s!"Warped to {name}!\n\n{summary}", now, [], []⟩)
    ∧ ((jumpTo name lat lng nav now SummaryOutcome.threw s).1.messages.getLast?
      = some ⟨toString now, Role.assistant, s!"Warped to {name}! Ready to explore.", now, [], []⟩)
    ∧ (∀ (responses : Nat → Except JSError (Option String)) (j : Nat → ℚ),
        (∀ a, ∃ e, responses a = Except.error e) →
        getLocationSummary place responses j = s!"Welcome to {place}!")
    ∧ (∀ (responses : Nat → Except JSError (Option String)) (j : Nat → ℚ),
        responses 0 = Except.ok none →
        getLocationSummary place responses j = s!"Welcome to {place}!")
    ∧ (∀ (responses : Nat → Except JSError (Option String)) (j : Nat → ℚ) (t : String),
        responses 0 = Except.ok (some t) → jsTrim t = "" →
        getLocationSummary place responses j = s!"Welcome to {place}!") := by
  have hlast : ∀ (o : SummaryOutcome) (content : String),
      (match o with
        | SummaryOutcome.ok su => content = s!"Warped to {name}!\n\n{su}"
        | SummaryOutcome.threw => content = s!"Warped to {name}! Ready to explore.") →
      (jumpTo name lat lng nav now o s).1.messages.getLast?
        = some ⟨toString now, Role.assistant, content, now, [], []⟩ := by
    intro o content hc
    cases nav <;> cases o <;>
      simp_all [jumpTo, h, updateGalleryStart, updateMessageContent,
        List.map_append, List.getLast?_concat]
  have herr : ∀ (responses : Nat → Except JSError (Option String)) (j : Nat → ℚ),
      (∀ a, ∃ e, responses a = Except.error e) →
      getLocationSummary place responses j = s!"Welcome to {place}!" := by
    intro responses j hall
    have hgo : ∀ (r a : Nat) (o : Nat → Except JSError String) (jj : Nat → ℚ) (b : ℚ),
        (∀ a, ∃ e, o a = Except.error e) → ∃ e, (retryGo o jj b a r).res = Except.error e := by
      intro r
      induction r with
      | zero =>
        intro a o jj b ho
        obtain ⟨e, he⟩ := ho a
        exact ⟨e, by unfold retryGo; rw [he]⟩
      | succ k ih =>
        intro a o jj b ho
        obtain ⟨e, he⟩ := ho a
        by_cases hr : retryable e = true
        · obtain ⟨e2, he2⟩ := ih (a + 1) o jj b ho
          exact ⟨e2, by unfold retryGo; rw [he]; simp [hr, he2]⟩
        · exact ⟨e, by unfold retryGo; rw [he]; simp [hr]⟩
    unfold getLocationSummary withRetry
    obtain ⟨e, he⟩ := hgo 4 0
      (fun a =>
        match responses a with
        | Except.ok t? =>
          Except.ok (match t? with
            | some t => if jsTrim t == "" then s!"Welcome to {place}!" else jsTrim t
            | none => s!"Welcome to {place}!")
        | Except.error e => Except.error e)
      j 3000
      (by
        intro a
        obtain ⟨e, he⟩ := hall a
        exact ⟨e, by simp only [he]⟩)
    simp only [withRetry] at he ⊢
    rw [he]
  refine ⟨hlast (SummaryOutcome.ok summary) _ rfl, hlast SummaryOutcome.threw _ rfl,
    herr, ?_, ?_⟩
  · intro responses j h0
    unfold getLocationSummary withRetry
    unfold retryGo
    simp [h0]
  · intro responses j t h0 ht
    unfold getLocationSummary withRetry
    unfold retryGo
    simp [h0, ht]

/-- Witness for C7: a concrete successful jump and a concrete all-failing
summary fetch. -/
theorem claim7_witness :
    ((jumpTo "Rome" (JSNum.num 1) (JSNum.num 2) false 9 (SummaryOutcome.ok "Nice.")
        initState).1.messages.getLast?
      = some ⟨"9", Role.assistant, "Warped to Rome!\n\nNice.", 9, [], []⟩)
    ∧ getLocationSummary "Rome" (fun _ => Except.error ⟨none, some 500⟩) (fun _ => 0)
      = "Welcome to Rome!" :=
  ⟨(claim7_summary_fallback "Rome" "Nice." "Rome" (JSNum.num 1) (JSNum.num 2) false 9
      initState (by decide)).1,
   (claim7_summary_fallback "Rome" "Nice." "Rome" (JSNum.num 1) (JSNum.num 2) false 9
      initState (by decide)).2.2.1 (fun _ => Except.error ⟨none, some 500⟩) (fun _ => 0)
      (fun _ => ⟨⟨none, some 500⟩, rfl⟩)⟩

/-! ## C8: the retry policy of `withRetry` -/

lemma retryGo_invocations_le (o : Nat → Except JSError α) (j : Nat → ℚ) (b : ℚ) :
    ∀ (r a : Nat), (retryGo o j b a r).invocations ≤ r + 1 := by
  intro r
  induction r with
  | zero =>
    intro a
    unfold retryGo
    cases o a <;> simp
  | succ k ih =>
    intro a
    unfold retryGo
    cases o a with
    | ok v => simp
    | error e =>
      by_cases hr : retryable e = true
      · simpa [hr] using Nat.succ_le_succ (ih (a + 1))
      · simp [hr]

/-- C8: the wrapped operation runs at most `maxRetries + 1 = 5` times; a
success at any attempt is returned immediately with no further invocation; a
failure that is neither a rate-limit (message containing `429` or status 429)
nor a server error (status 500-504) is rethrown at once; when the budget is
exhausted the last error is rethrown; and a retryable failure with budget
remaining waits `baseDelay * 3 ^ attempt` plus the sampled jitter and
continues with the next attempt, adding one invocation. -/
theorem claim8_withRetry (o : Nat → Except JSError α) (j : Nat → ℚ) :
    (withRetry o j).invocations ≤ 5
    ∧ (∀ (a r : Nat) (v : α), o a = Except.ok v →
        retryGo o j 3000 a r = ⟨Except.ok v, 1, []⟩)
    ∧ (∀ (a r : Nat) (e : JSError), o a = Except.error e → retryable e = false →
        retryGo o j 3000 a r = ⟨Except.error e, 1, []⟩)
    ∧ (∀ (a : Nat) (e : JSError), o a = Except.error e →
        retryGo o j 3000 a 0 = ⟨Except.error e, 1, []⟩)
    ∧ (∀ (a r : Nat) (e : JSError), o a = Except.error e → retryable e = true →
        retryGo o j 3000 a (r + 1)
          = ⟨(retryGo o j 3000 (a + 1) r).res, (retryGo o j 3000 (a + 1) r).invocations + 1,
             (3000 * 3 ^ a + j a) :: (retryGo o j 3000 (a + 1) r).delays⟩) := by
  refine ⟨retryGo_invocations_le o j 3000 4 0, ?_, ?_, ?_, ?_⟩
  · intro a r v hv
    unfold retryGo
    rw [hv]
  · intro a r e he hr
    unfold retryGo
    rw [he]
    cases r <;> simp [hr]
  · intro a e he
    unfold retryGo
    rw [he]
  · intro a r e he hr
    conv_lhs => rw [retryGo]
    rw [he]
    simp [hr]

/-- Witness for C8: a permanently rate-limited oracle is invoked at most five
times, and with zero remaining budget the error is rethrown at once. -/
theorem claim8_witness :
    (withRetry (fun _ => (Except.error ⟨some "HTTP 429", none⟩ : Except JSError Nat))
      (fun _ => 0)).invocations ≤ 5
    ∧ retryGo (fun _ => (Except.error ⟨some "HTTP 429", none⟩ : Except JSError Nat))
        (fun _ => 0) 3000 0 0
      = ⟨Except.error ⟨some "HTTP 429", none⟩, 1, []⟩ :=
  ⟨(claim8_withRetry (fun _ => (Except.error ⟨some "HTTP 429", none⟩ : Except JSError Nat))
      (fun _ => 0)).1,
   (claim8_withRetry (fun _ => (Except.error ⟨some "HTTP 429", none⟩ : Except JSError Nat))
      (fun _ => 0)).2.2.2.1 0 ⟨some "HTTP 429", none⟩ rfl⟩

/-! ## C9: message ids and mutation by id -/

/-- Counterexample to C9 as stated: ids are timestamp strings, and
`handleSend` gives the assistant reply id `Date.now() + 1`, so a reply
resolving at time 200 takes id `"201"` and the next user turn sent at time
201 takes the same id `"201"`. Mutating by that id then rewrites two
messages, not one. -/
theorem claim9_counterexample :
    ((handleSend (some "yo") 201 (Except.ok ⟨"ans2", [], []⟩) 300
        (handleSend (some "hi") 100 (Except.ok ⟨"ans", [], []⟩) 200 initState).1).1.messages.filter
      (fun m => m.id == "201")).length = 2
    ∧ ¬ ((handleSend (some "yo") 201 (Except.ok ⟨"ans2", [], []⟩) 300
        (handleSend (some "hi") 100 (Except.ok ⟨"ans", [], []⟩) 200 initState).1).1.messages.map
          Message.id).Nodup
    ∧ ((updateMessageContent "201" "X"
        (handleSend (some "yo") 201 (Except.ok ⟨"ans2", [], []⟩) 300
          (handleSend (some "hi") 100 (Except.ok ⟨"ans", [], []⟩) 200
            initState).1).1.messages).filter (fun m => m.content == "X")).length = 2 := by
  refine ⟨?_, by decide, ?_⟩ <;> rfl

lemma updateMessageContent_of_forall_ne (t c : String) (l : List Message)
    (h : ∀ m ∈ l, m.id ≠ t) : updateMessageContent t c l = l := by
  induction l with
  | nil => rfl
  | cons m rest ih =>
    have hm : m.id ≠ t := h m (List.mem_cons_self m rest)
    have hr : ∀ m ∈ rest, m.id ≠ t := fun x hx => h x (List.mem_cons_of_mem m hx)
    simp [updateMessageContent, hm, ih hr] at *
    simpa [updateMessageContent] using ih hr

lemma updateMessageContent_set (t c : String) :
    ∀ (msgs : List Message) (i : Nat) (hi : i < msgs.length),
      (msgs.map Message.id).Nodup → (msgs.get ⟨i, hi⟩).id = t →
      updateMessageContent t c msgs = msgs.set i { msgs.get ⟨i, hi⟩ with content := c }
  | [], i, hi, _, _ => absurd hi (Nat.not_lt_zero i)
  | m :: rest, 0, hi, hnd, hid => by
    have hm : m.id = t := hid
    have hrest : ∀ x ∈ rest, x.id ≠ t := by
      intro x hx hxt
      have hmem : m.id ∈ rest.map Message.id := by
        rw [hm, ← hxt]
        exact List.mem_map_of_mem Message.id hx
      exact (List.nodup_cons.mp (by simpa using hnd)).1 hmem
    simp only [updateMessageContent, List.map_cons, List.set, if_pos hm]
    rw [show List.map (fun m => if m.id = t then { m with content := c } else m) rest
          = updateMessageContent t c rest from rfl,
        updateMessageContent_of_forall_ne t c rest hrest]
    rfl
  | m :: rest, k + 1, hi, hnd, hid => by
    have hk : k < rest.length := Nat.lt_of_succ_lt_succ hi
    have hmne : m.id ≠ t := by
      intro hmt
      have hmem : t ∈ rest.map Message.id := by
        rw [← hid]
        exact List.mem_map_of_mem Message.id (rest.get_mem k hk)
      rw [← hmt] at hmem
      exact (List.nodup_cons.mp (by simpa using hnd)).1 hmem
    have hnd2 : (rest.map Message.id).Nodup := (List.nodup_cons.mp (by simpa using hnd)).2
    have hrec := updateMessageContent_set t c rest k hk hnd2 hid
    simp only [updateMessageContent, List.map_cons, List.set, if_neg hmne]
    rw [show List.map (fun m => if m.id = t then { m with content := c } else m) rest
          = updateMessageContent t c rest from rfl, hrec]
    rfl

/-- C9 (amended): ids are timestamp strings, unique only when the involved
`Date.now()` samples give distinct strings; whenever the transcript ids are
pairwise distinct, a mutation targeting a recorded id rewrites exactly the
one message at the position bearing it, and any newer messages appended after
it (with other ids) are untouched. -/
theorem claim9_unique_id_update (msgs newer : List Message) (target content : String)
    (i : Nat) (hi : i < msgs.length)
    (hnd : (msgs.map Message.id).Nodup)
    (hid : (msgs.get ⟨i, hi⟩).id = target)
    (hfresh : ∀ m ∈ newer, m.id ≠ target) :
    updateMessageContent target content (msgs ++ newer)
      = msgs.set i { msgs.get ⟨i, hi⟩ with content := content } ++ newer := by
  have happ : updateMessageContent target content (msgs ++ newer)
      = updateMessageContent target content msgs ++ updateMessageContent target content newer := by
    simp [updateMessageContent]
  rw [happ, updateMessageContent_of_forall_ne target content newer hfresh,
    updateMessageContent_set target content msgs i hi hnd hid]

/-- Witness for C9's amended theorem on a concrete three-message transcript. -/
theorem claim9_witness :
    updateMessageContent "2" "new"
        ([⟨"1", Role.assistant, "a", 1, [], []⟩, ⟨"2", Role.assistant, "b", 2, [], []⟩]
          ++ [⟨"3", Role.user, "c", 3, [], []⟩])
      = [⟨"1", Role.assistant, "a", 1, [], []⟩, ⟨"2", Role.assistant, "new", 2, [], []⟩,
         ⟨"3", Role.user, "c", 3, [], []⟩] :=
  claim9_unique_id_update
    [⟨"1", Role.assistant, "a", 1, [], []⟩, ⟨"2", Role.assistant, "b", 2, [], []⟩]
    [⟨"3", Role.user, "c", 3, [], []⟩] "2" "new" 1 (by decide) (by decide) rfl
    (by decide)

/-! ## C10: the busy-flag guard on the four user-action handlers -/

/-- C10: whenever the busy flag is already set, `handleLocationSearch`,
`handleMapClick`, `handleSend` and `handleFeelingLucky` return immediately —
no state change and no dispatched gateway call — while back/forward traversal
carries no such guard (a concrete busy back-traversal still moves the
cursor). -/
theorem claim10_busy_guard (s : AppState) (h : s.isLoading = true)
    (customQuery customInput : Option String)
    (gres : Except Unit (Option GeocodeResponse))
    (rres mres : Except Unit (Option NavLocation))
    (qres : Except Unit QueryResponse)
    (lat lng : JSNum) (n0 n1 n2 : Nat) (o : SummaryOutcome) :
    handleLocationSearch customQuery gres n1 n2 o s = (s, [])
    ∧ handleMapClick lat lng mres n1 o s = (s, [])
    ∧ handleSend customInput n0 qres n1 s = (s, [])
    ∧ handleFeelingLucky n0 n1 rres o s = (s, [])
    ∧ (handleBack 7 SummaryOutcome.threw
        { initState with
            isLoading := true
            historyIndex := 1
            navHistory := [⟨"A", JSNum.num 1, JSNum.num 1⟩,
              ⟨"B", JSNum.num 2, JSNum.num 2⟩] }).1.historyIndex = 0 := by
  refine ⟨?_, ?_, ?_, ?_, by rfl⟩
  · unfold handleLocationSearch
    rw [if_pos]
    simp [h]
  · unfold handleMapClick
    rw [if_pos]
    simp [h]
  · unfold handleSend
    rw [if_pos]
    simp [h]
  · unfold handleFeelingLucky
    rw [if_pos h]

/-- Witness for C10 at a concrete busy state. -/
theorem claim10_witness :
    handleFeelingLucky 0 0 (Except.ok none) SummaryOutcome.threw
        { initState with isLoading := true }
      = ({ initState with isLoading := true }, []) :=
  (claim10_busy_guard { initState with isLoading := true } rfl none none
    (Except.ok none) (Except.ok none) (Except.ok none)
    (Except.error ()) JSNum.nan JSNum.nan 0 0 0 SummaryOutcome.threw).2.2.2.1

/-! ## C3: the bound on `seenHistory` -/

/-- The last `k` elements of a list. -/
def takeLast (k : Nat) (l : List α) : List α := l.drop (l.length - k)

lemma takeLast_of_le {k : Nat} {l : List α} (h : l.length ≤ k) : takeLast k l = l := by
  unfold takeLast
  rw [Nat.sub_eq_zero_of_le h, List.drop_zero]

lemma takeLast_append_takeLast (k : Nat) (l m : List α) :
    takeLast k (takeLast k l ++ m) = takeLast k (l ++ m) := by
  by_cases h : l.length ≤ k
  · rw [takeLast_of_le h]
  · push_neg at h
    unfold takeLast
    have hlen : (l.drop (l.length - k)).length = k := by
      rw [List.length_drop]; omega
    rw [List.length_append, List.length_append, hlen,
      List.drop_append_eq_append_drop, List.drop_append_eq_append_drop,
      List.drop_drop, hlen]
    have e1 : l.length - k + (k + m.length - k) = l.length + m.length - k := by omega
    have e2 : k + m.length - k - k = m.length - k := by omega
    have e3 : l.length + m.length - k - l.length = m.length - k := by omega
    rw [e1, e2, e3]

lemma pushSeen_eq_takeLast (h : List String) (n : String) :
    pushSeen h n = takeLast 21 (h ++ [n]) := by
  unfold pushSeen takeLast
  rw [List.length_append, List.drop_append_eq_append_drop]
  have e1 : h.length + [n].length - 21 = h.length - 20 := by
    simp only [List.length_singleton]
    omega
  rw [e1]
  have e2 : h.length - 20 - h.length = 0 := by omega
  rw [e2, List.drop_zero]

lemma pushSeen_length_le (h : List String) (n : String) : (pushSeen h n).length ≤ 21 := by
  simp [pushSeen]
  omega

/-- One success-path run of `handleFeelingLucky` per fetched gem, with the
gallery token and clocks held fixed (they do not influence `seenHistory`). -/
def luckyRun (gems : List NavLocation) (s : AppState) : AppState :=
  gems.foldl (fun st g =>
    (handleFeelingLucky 0 0 (Except.ok (some g)) (SummaryOutcome.ok "") st).1) s

lemma handleFeelingLucky_success_seen (n0 n1 : Nat) (g : NavLocation) (o : SummaryOutcome)
    (s : AppState) (hl : s.isLoading = false)
    (hv : (isValidCoord g.lat && isValidCoord g.lng) = true) :
    (handleFeelingLucky n0 n1 (Except.ok (some g)) o s).1.seenHistory
      = pushSeen s.seenHistory g.name
    ∧ (handleFeelingLucky n0 n1 (Except.ok (some g)) o s).1.isLoading = false := by
  constructor
  · simp [handleFeelingLucky, hl, hv, jumpTo_seenHistory]
  · simp [handleFeelingLucky, hl, hv,
      fun st => jumpTo_isLoading_of_valid g.name g.lat g.lng false n1 o st hv]

lemma luckyRun_seenHistory :
    ∀ (gems : List NavLocation) (s : AppState), s.isLoading = false →
      s.seenHistory.length ≤ 21 →
      (∀ g ∈ gems, (isValidCoord g.lat && isValidCoord g.lng) = true) →
      (luckyRun gems s).seenHistory = takeLast 21 (s.seenHistory ++ gems.map NavLocation.name)
      ∧ (luckyRun gems s).isLoading = false
  | [], s, hl, hlen, _ => by
    constructor
    · simp [luckyRun, takeLast_of_le hlen]
    · simpa [luckyRun] using hl
  | g :: gems, s, hl, hlen, hv => by
    have hg := hv g (List.mem_cons_self g gems)
    have hstep := handleFeelingLucky_success_seen 0 0 g (SummaryOutcome.ok "") s hl hg
    have hrec := luckyRun_seenHistory gems
      (handleFeelingLucky 0 0 (Except.ok (some g)) (SummaryOutcome.ok "") s).1
      hstep.2 (by rw [hstep.1]; exact pushSeen_length_le _ _)
      (fun x hx => hv x (List.mem_cons_of_mem g hx))
    have hrun : luckyRun (g :: gems) s
        = luckyRun gems
          (handleFeelingLucky 0 0 (Except.ok (some g)) (SummaryOutcome.ok "") s).1 := rfl
    rw [hrun]
    refine ⟨?_, hrec.2⟩
    rw [hrec.1, hstep.1, pushSeen_eq_takeLast, takeLast_append_takeLast]
    simp

/-- Twenty-five distinct successful random-location results. -/
def gems25 : List NavLocation :=
  (List.range 25).map (fun i => ⟨"Gem" ++ toString i, JSNum.num 1, JSNum.num 1⟩)

set_option maxRecDepth 40000 in
/-- Counterexample to C3 as stated: `[...prev.slice(-20), name]` keeps up to
21 entries, so after 25 consecutive successful random locations from the
initial seed the list holds 21 names, not at most 20. -/
theorem claim3_counterexample :
    (luckyRun gems25 initState).seenHistory.length = 21
    ∧ ¬ ((luckyRun gems25 initState).seenHistory.length ≤ 20) := by
  constructor
  · rfl
  · decide

/-- C3 (amended): `seenHistory` is bounded by `max (previous length) 21` at
every step (so by 21 once it ever dips to 21 or below, the oldest entries
dropping first), and after 25 consecutive successful random-location results
from the initial state it holds exactly the most recent 21 names. -/
theorem claim3_seenHistory_bound :
    (∀ (n0 n1 : Nat) (g : Except Unit (Option NavLocation)) (o : SummaryOutcome)
        (s : AppState),
      (handleFeelingLucky n0 n1 g o s).1.seenHistory.length ≤ max s.seenHistory.length 21)
    ∧ (∀ gems : List NavLocation, gems.length = 25 →
        (∀ g ∈ gems, (isValidCoord g.lat && isValidCoord g.lng) = true) →
        (luckyRun gems initState).seenHistory = (gems.map NavLocation.name).drop 4) := by
  constructor
  · intro n0 n1 g o s
    by_cases hl : s.isLoading = true
    · simp [handleFeelingLucky, hl]
    · have hl2 : s.isLoading = false := by simpa using hl
      cases g with
      | error e =>
        simp [handleFeelingLucky, hl2]
      | ok gemOpt =>
        cases gemOpt with
        | none => simp [handleFeelingLucky, hl2]
        | some gem =>
          by_cases hv : (isValidCoord gem.lat && isValidCoord gem.lng) = true
          · rw [(handleFeelingLucky_success_seen n0 n1 gem o s hl2 hv).1]
            exact le_trans (pushSeen_length_le _ _) (le_max_right _ _)
          · simp [handleFeelingLucky, hl2, hv]
  · intro gems hlen hv
    have hrun := (luckyRun_seenHistory gems initState rfl (by decide) hv).1
    rw [hrun]
    unfold takeLast
    have hlen2 : (initState.seenHistory ++ gems.map NavLocation.name).length = 27 := by
      rw [List.length_append, List.length_map, hlen]
      rfl
    rw [hlen2]
    have hseed : initState.seenHistory ++ gems.map NavLocation.name
        = (["Vashon Island", "Petra"] : List String) ++ gems.map NavLocation.name := rfl
    rw [hseed,
      show (27 - 21 : Nat)
        = (["Vashon Island", "Petra"] : List String).length + 4 from rfl,
      List.drop_append]

/-- Witness for C3's amended theorem: 25 concrete successful results leave
exactly the last 21 names. -/
theorem claim3_witness :
    (luckyRun gems25 initState).seenHistory = (gems25.map NavLocation.name).drop 4 :=
  claim3_seenHistory_bound.2 gems25 (by decide) (by decide)
